import Mathlib

/-!
Shallow embedding of `chromadb/api/async_fastapi.py` (class `AsyncFastAPI`),
the asynchronous HTTP client of the chroma repository.

Conventions of the embedding:
* Python `None`-able arguments and JSON fields become `Option`.
* A `UUID` appears in the code only through `str(id)`, so it is embedded as
  its string form (`UUIDStr`).
* Numeric embedding vectors are carried uninterpreted (the code never inspects
  them; the numpy conversion utility is an external collaborator per the
  spec), so their scalar type is `Int`.
* Each operation is a pure function from the client state (and the decoded
  server response it would consume) to its result together with the list of
  HTTP requests it dispatches through `_make_request`, in order.  Operations
  that mutate the client state also return the new state.
* Exceptions become `Except ApiError`.
-/

namespace Chroma

abbrev IDs := List String
abbrev Metadata := List (String × String)
abbrev Where := List (String × String)
abbrev WhereDocument := List (String × String)
abbrev Embedding := List Int
abbrev Document := String
abbrev URI := String
/-- The string form `str(id)` of a `uuid.UUID`. -/
abbrev UUIDStr := String

/-- Opaque stand-in for `chromadb.config.Settings` (external collaborator);
only its identity matters to the client, which stores and returns it. -/
structure Settings where
  chroma_server_host : String
  chroma_server_http_port : Nat
  deriving Repr, DecidableEq

/-- The mutable per-instance state of `AsyncFastAPI` that the embedded
operations read or write: the lifecycle running flag (`_running` of the base
component, set by `start`/`stop`), the cached `_max_batch_size` (sentinel
`-1` = unfetched), the resolved `_api_url`, and the stored `_settings`. -/
structure ClientState where
  running : Bool
  maxBatchSize : Int
  apiUrl : String
  settings : Settings
  deriving Repr, DecidableEq

/-! ### Percent-encoding — `urllib.parse.quote(path, safe="/")` -/

/-- The bytes `urllib.parse.quote` never escapes (its `always_safe` set):
ASCII letters, digits, and `_`, `.`, `-`, `~`. -/
def alwaysSafeByte (b : Nat) : Bool :=
  (65 ≤ b && b ≤ 90) || (97 ≤ b && b ≤ 122) || (48 ≤ b && b ≤ 57) ||
    b == 95 || b == 46 || b == 45 || b == 126

/-- Upper-case hex digit, as used by `urllib.parse.quote`. -/
def hexDigit (n : Nat) : Char :=
  if n < 10 then Char.ofNat (48 + n) else Char.ofNat (55 + n)

/-- Embeds `urllib.parse.quote` on a single byte given the extra `safe` bytes:
kept verbatim when always-safe or in `safe`, otherwise `%XX`. -/
def quoteByte (safe : List Nat) (b : Nat) : String :=
  if alwaysSafeByte b || safe.contains b then String.mk [Char.ofNat b]
  else String.mk ['%', hexDigit (b / 16), hexDigit (b % 16)]

/-- Percent-encoding of a byte sequence: the concatenation of the quoted
form of each byte, in order. -/
def quoteBytes (safe : List Nat) : List Nat → String
  | [] => ""
  | b :: bs => quoteByte safe b ++ quoteBytes safe bs

/-- The UTF-8 encoding of one character, as byte values. -/
def utf8Bytes (c : Char) : List Nat :=
  let n := c.toNat
  if n < 0x80 then [n]
  else if n < 0x800 then [0xC0 + n / 64, 0x80 + n % 64]
  else if n < 0x10000 then
    [0xE0 + n / 4096, 0x80 + (n / 64) % 64, 0x80 + n % 64]
  else
    [0xF0 + n / 262144, 0x80 + (n / 4096) % 64, 0x80 + (n / 64) % 64,
     0x80 + n % 64]

/-- The UTF-8 bytes of a string, as naturals. -/
def stringBytes (s : String) : List Nat :=
  (s.data.map utf8Bytes).flatten

/-- Embeds `urllib.parse.quote(path, safe="/")`: encode to UTF-8, then
percent-escape every byte outside always-safe ∪ {`/`}. -/
def quotePath (path : String) : String :=
  quoteBytes [47] (stringBytes path)

/-! ### Requests dispatched through `_make_request` -/

/-- The JSON request bodies the client sends (the `json=` argument of
`_make_request`, serialized by orjson before dispatch). -/
inductive ReqBody where
  /-- Embeds `{"name": name}` — create_database / create_tenant. -/
  | nameBody (name : String)
  /-- create_collection body. -/
  | createCollectionBody (name : String) (metadata : Option Metadata)
      (configuration : Option String) (get_or_create : Bool)
  /-- Embeds `_modify` body `{"new_metadata": ..., "new_name": ...}`. -/
  | modifyBody (new_metadata : Option Metadata) (new_name : Option String)
  /-- Embeds `_get` body. -/
  | getBody (ids : Option IDs) (where_ : Option Where) (sort : Option String)
      (limit : Option Int) (offset : Option Int)
      (where_document : Option WhereDocument) (include_ : List String)
  /-- Embeds `_delete` body `{"where": ..., "ids": ..., "where_document": ...}`. -/
  | deleteBody (where_ : Option Where) (ids : Option IDs)
      (where_document : Option WhereDocument)
  /-- Embeds `_submit_batch` body `{ids, embeddings, metadatas, documents, uris}`. -/
  | batchBody (ids : IDs) (embeddings : Option (List Embedding))
      (metadatas : Option (List Metadata)) (documents : Option (List Document))
      (uris : Option (List URI))
  /-- Embeds `_query` body. -/
  | queryBody (query_embeddings : List Embedding) (n_results : Int)
      (where_ : Option Where) (where_document : Option WhereDocument)
      (include_ : List String)
  deriving Repr, DecidableEq

/-- One HTTP request as issued by `_make_request`: the method, the raw
`path` argument, the final URL (`_api_url` + percent-encoded path), the
query parameters, and the optional JSON body. -/
structure Request where
  method : String
  path : String
  url : String
  params : List (String × String)
  body : Option ReqBody
  deriving Repr, DecidableEq

/-- Embeds `_make_request`: percent-encode the path with `/` kept safe and prepend
the client's `_api_url`. -/
def mkRequest (st : ClientState) (method path : String)
    (params : List (String × String)) (body : Option ReqBody) : Request :=
  { method := method, path := path, url := st.apiUrl ++ quotePath path,
    params := params, body := body }

/-! ### Errors and lifecycle -/

/-- The typed errors of the layer (spec §7) that arise before dispatch. -/
inductive ApiError where
  /-- Operation invoked while the client is not running. -/
  | lifecycleError
  /-- Caller-supplied arguments are malformed (Python `ValueError`). -/
  | validationError (msg : String)
  deriving Repr, DecidableEq

/-- Modelled from the spec: `_raise_for_running` of `BaseHTTPClient` (the
base class is outside this unit) — the pre-flight "is the client in a
running state" check; fails fast with a LifecycleError when not running. -/
def raiseForRunning (st : ClientState) : Except ApiError Unit :=
  if st.running then Except.ok () else Except.error ApiError.lifecycleError

/-- Embeds `close()`: shuts the connection registry down (modelled separately on
`Registry`) and stops the client — `stop` transitions the lifecycle state
out of running (modelled from the spec; the base `stop` is outside this
unit). -/
def close (st : ClientState) : ClientState :=
  { st with running := false }

/-- Embeds `get_settings`: returns the stored settings; the source has no
`_raise_for_running` call and dispatches nothing here. -/
def get_settings (st : ClientState) : Settings :=
  st.settings

/-! ### Decoded server responses and result shapes -/

/-- Decoded heartbeat response `{"nanosecond heartbeat": n}`. -/
structure HeartbeatJson where
  nanosecond_heartbeat : Int
  deriving Repr, DecidableEq

/-- Decoded database JSON (fields read by `get_database`). -/
structure DatabaseJson where
  id : String
  name : String
  tenant : String
  deriving Repr, DecidableEq

/-- Embeds `chromadb.types.Database` as built by `get_database`. -/
structure Database where
  id : String
  name : String
  tenant : String
  deriving Repr, DecidableEq

/-- Decoded tenant JSON (field read by `get_tenant`). -/
structure TenantJson where
  name : String
  deriving Repr, DecidableEq

/-- Embeds `chromadb.types.Tenant`. -/
structure Tenant where
  name : String
  deriving Repr, DecidableEq

/-- Decoded collection JSON, per the spec's CollectionDescriptor fields. -/
structure CollectionJson where
  id : String
  name : String
  tenant : String
  database : String
  metadata : Option Metadata
  configuration : Option String
  deriving Repr, DecidableEq

/-- Modelled from the spec: `CollectionModel.from_json` (the model type
lives outside this unit); the CollectionDescriptor
`{id, name, tenant, database, metadata, configuration}` built from server
JSON. -/
structure CollectionModel where
  id : String
  name : String
  tenant : String
  database : String
  metadata : Option Metadata
  configuration : Option String
  deriving Repr, DecidableEq

/-- Modelled from the spec: `CollectionModel.from_json` — field-for-field
construction from the decoded JSON. -/
def CollectionModel.from_json (j : CollectionJson) : CollectionModel :=
  { id := j.id, name := j.name, tenant := j.tenant, database := j.database,
    metadata := j.metadata, configuration := j.configuration }

/-- Decoded response of `/get`: `ids` always present, the optional fields
present only when the server populated them (`resp_json.get(k, None)`). -/
structure GetRespJson where
  ids : List String
  embeddings : Option (List Embedding)
  metadatas : Option (List Metadata)
  documents : Option (List Document)
  uris : Option (List URI)
  included : Option (List String)
  deriving Repr, DecidableEq

/-- Embeds `chromadb.api.types.GetResult` as constructed by `_get`. -/
structure GetResult where
  ids : List String
  embeddings : Option (List Embedding)
  metadatas : Option (List Metadata)
  documents : Option (List Document)
  data : Option Unit
  uris : Option (List URI)
  included : List String
  deriving Repr, DecidableEq

/-- Decoded response of `/query` (per-query nested lists). -/
structure QueryRespJson where
  ids : List (List String)
  distances : Option (List (List Int))
  embeddings : Option (List (List Embedding))
  metadatas : Option (List (List Metadata))
  documents : Option (List (List Document))
  uris : Option (List (List URI))
  included : Option (List String)
  deriving Repr, DecidableEq

/-- Embeds `chromadb.api.types.QueryResult` as constructed by `_query`. -/
structure QueryResult where
  ids : List (List String)
  distances : Option (List (List Int))
  embeddings : Option (List (List Embedding))
  metadatas : Option (List (List Metadata))
  documents : Option (List (List Document))
  uris : Option (List (List URI))
  data : Option Unit
  included : List String
  deriving Repr, DecidableEq

/-! ### Python helpers -/

/-- Python truthiness of an `Optional[str]`: `None` and `""` are falsy. -/
def truthyStr : Option String → Bool
  | none => false
  | some s => s ≠ ""

/-- Python truthiness of an `Optional[int]`: `None` and `0` are falsy. -/
def truthyInt : Option Int → Bool
  | none => false
  | some n => n ≠ 0

/-- Python `str` on an `Optional[UUID]`: `str(None) = "None"`. -/
def pyStr : Option UUIDStr → String
  | none => "None"
  | some u => u

/-- Modelled from the spec: `BaseHTTPClient._clean_params` (base class is
outside this unit) — optional query parameters are included only when
provided (`None` values dropped, insertion order kept). -/
def cleanParams (ps : List (String × Option String)) : List (String × String) :=
  ps.filterMap (fun p => p.2.map (fun v => (p.1, v)))

/-! ### Domain operations

Each function mirrors one method of `AsyncFastAPI`, in source order:
the `_raise_for_running` pre-flight check first, then argument validation,
then the dispatched request(s).  The decoded server response the method
would consume is passed in as an argument. -/

/-- Embeds `heartbeat()`. -/
def heartbeat (st : ClientState) (resp : HeartbeatJson) :
    Except ApiError Int × List Request :=
  match raiseForRunning st with
  | .error e => (.error e, [])
  | .ok _ => (.ok resp.nanosecond_heartbeat, [mkRequest st "get" "" [] none])

/-- Embeds `create_database(name, tenant)`. -/
def create_database (st : ClientState) (name : String) (tenant : String) :
    Except ApiError Unit × List Request :=
  match raiseForRunning st with
  | .error e => (.error e, [])
  | .ok _ =>
    (.ok (), [mkRequest st "post" "/databases" [("tenant", tenant)]
      (some (ReqBody.nameBody name))])

/-- Embeds `get_database(name, tenant)`. -/
def get_database (st : ClientState) (name : String) (tenant : String)
    (resp : DatabaseJson) : Except ApiError Database × List Request :=
  match raiseForRunning st with
  | .error e => (.error e, [])
  | .ok _ =>
    (.ok { id := resp.id, name := resp.name, tenant := resp.tenant },
     [mkRequest st "get" ("/databases/" ++ name) [("tenant", tenant)] none])

/-- Embeds `create_tenant(name)`. -/
def create_tenant (st : ClientState) (name : String) :
    Except ApiError Unit × List Request :=
  match raiseForRunning st with
  | .error e => (.error e, [])
  | .ok _ =>
    (.ok (), [mkRequest st "post" "/tenants" [] (some (ReqBody.nameBody name))])

/-- Embeds `get_tenant(name)`. -/
def get_tenant (st : ClientState) (name : String) (resp : TenantJson) :
    Except ApiError Tenant × List Request :=
  match raiseForRunning st with
  | .error e => (.error e, [])
  | .ok _ =>
    (.ok { name := resp.name }, [mkRequest st "get" ("/tenants/" ++ name) [] none])

/-- Embeds `list_collections(limit, offset, tenant, database)`. -/
def list_collections (st : ClientState) (limit offset : Option Int)
    (tenant database : String) (resp : List CollectionJson) :
    Except ApiError (List CollectionModel) × List Request :=
  match raiseForRunning st with
  | .error e => (.error e, [])
  | .ok _ =>
    (.ok (resp.map CollectionModel.from_json),
     [mkRequest st "get" "/collections"
       (cleanParams [("tenant", some tenant), ("database", some database),
         ("limit", limit.map toString), ("offset", offset.map toString)]) none])

/-- Embeds `count_collections(tenant, database)`. -/
def count_collections (st : ClientState) (tenant database : String)
    (resp : Int) : Except ApiError Int × List Request :=
  match raiseForRunning st with
  | .error e => (.error e, [])
  | .ok _ =>
    (.ok resp, [mkRequest st "get" "/count_collections"
      [("tenant", tenant), ("database", database)] none])

/-- Embeds `create_collection(name, configuration, metadata, get_or_create, tenant,
database)`. -/
def create_collection (st : ClientState) (name : String)
    (configuration : Option String) (metadata : Option Metadata)
    (get_or_create : Bool) (tenant database : String) (resp : CollectionJson) :
    Except ApiError CollectionModel × List Request :=
  match raiseForRunning st with
  | .error e => (.error e, [])
  | .ok _ =>
    (.ok (CollectionModel.from_json resp),
     [mkRequest st "post" "/collections"
       [("tenant", tenant), ("database", database)]
       (some (ReqBody.createCollectionBody name metadata configuration
         get_or_create))])

/-- Embeds `get_collection(name, id, tenant, database)`.  The path expression in the
source is `"/collections/" + name if name else str(id)`, which Python parses
as `("/collections/" + name) if name else str(id)`: when `name` is falsy the
whole path is just `str(id)`. -/
def get_collection (st : ClientState) (name : Option String)
    (id : Option UUIDStr) (tenant database : String) (resp : CollectionJson) :
    Except ApiError CollectionModel × List Request :=
  match raiseForRunning st with
  | .error e => (.error e, [])
  | .ok _ =>
    if (name.isNone && id.isNone) || (name.isSome && id.isSome) then
      (.error (.validationError "Name or id must be specified, but not both"),
       [])
    else
      let params := [("tenant", tenant), ("database", database)] ++
        (match id with
         | some i => [("type", i)]
         | none => [])
      let path :=
        if truthyStr name then "/collections/" ++ name.getD "" else pyStr id
      (.ok (CollectionModel.from_json resp),
       [mkRequest st "get" path params none])

/-- Embeds `get_or_create_collection(...)`: delegates to `create_collection` with
`get_or_create=True`. -/
def get_or_create_collection (st : ClientState) (name : String)
    (configuration : Option String) (metadata : Option Metadata)
    (tenant database : String) (resp : CollectionJson) :
    Except ApiError CollectionModel × List Request :=
  match raiseForRunning st with
  | .error e => (.error e, [])
  | .ok _ =>
    create_collection st name configuration metadata true tenant database resp

/-- Embeds `_modify(id, new_name, new_metadata)`. -/
def _modify (st : ClientState) (id : UUIDStr) (new_name : Option String)
    (new_metadata : Option Metadata) : Except ApiError Unit × List Request :=
  match raiseForRunning st with
  | .error e => (.error e, [])
  | .ok _ =>
    (.ok (), [mkRequest st "put" ("/collections/" ++ id) []
      (some (ReqBody.modifyBody new_metadata new_name))])

/-- Embeds `delete_collection(name, tenant, database)`. -/
def delete_collection (st : ClientState) (name : String)
    (tenant database : String) : Except ApiError Unit × List Request :=
  match raiseForRunning st with
  | .error e => (.error e, [])
  | .ok _ =>
    (.ok (), [mkRequest st "delete" ("/collections/" ++ name)
      [("tenant", tenant), ("database", database)] none])

/-- Embeds `_count(collection_id)`. -/
def _count (st : ClientState) (collection_id : UUIDStr) (resp : Int) :
    Except ApiError Int × List Request :=
  match raiseForRunning st with
  | .error e => (.error e, [])
  | .ok _ =>
    (.ok resp,
     [mkRequest st "get" ("/collections/" ++ collection_id ++ "/count") [] none])

/-- Embeds `_get(collection_id, ids, where, sort, limit, offset, page, page_size,
where_document, include)`.  The pagination branch is `if page and page_size:`
— Python truthiness, so `None` and `0` both skip the translation. -/
def _get (st : ClientState) (collection_id : UUIDStr) (ids : Option IDs)
    (where_ : Option Where) (sort : Option String) (limit offset : Option Int)
    (page page_size : Option Int) (where_document : Option WhereDocument)
    (include_ : List String) (resp : GetRespJson) :
    Except ApiError GetResult × List Request :=
  match raiseForRunning st with
  | .error e => (.error e, [])
  | .ok _ =>
    let limoff : Option Int × Option Int :=
      if truthyInt page && truthyInt page_size then
        (page_size, some ((page.getD 0 - 1) * page_size.getD 0))
      else (limit, offset)
    (.ok { ids := resp.ids, embeddings := resp.embeddings,
           metadatas := resp.metadatas, documents := resp.documents,
           data := none, uris := resp.uris,
           included := resp.included.getD include_ },
     [mkRequest st "post" ("/collections/" ++ collection_id ++ "/get") []
       (some (ReqBody.getBody ids where_ sort limoff.1 limoff.2
         where_document include_))])

/-- Embeds `_peek(collection_id, n)`: `_get` with `limit=n` and a fixed
include-list, other arguments at their Python defaults. -/
def _peek (st : ClientState) (collection_id : UUIDStr) (n : Int)
    (resp : GetRespJson) : Except ApiError GetResult × List Request :=
  match raiseForRunning st with
  | .error e => (.error e, [])
  | .ok _ =>
    _get st collection_id none (some []) none (some n) none none none
      (some []) ["embeddings", "documents", "metadatas"] resp

/-- Embeds `_delete(collection_id, ids, where, where_document)`. -/
def _delete (st : ClientState) (collection_id : UUIDStr) (ids : Option IDs)
    (where_ : Option Where) (where_document : Option WhereDocument) :
    Except ApiError Unit × List Request :=
  match raiseForRunning st with
  | .error e => (.error e, [])
  | .ok _ =>
    (.ok (),
     [mkRequest st "post" ("/collections/" ++ collection_id ++ "/delete") []
       (some (ReqBody.deleteBody where_ ids where_document))])

/-- Embeds `_query(collection_id, query_embeddings, n_results, where,
where_document, include)`. -/
def _query (st : ClientState) (collection_id : UUIDStr)
    (query_embeddings : List Embedding) (n_results : Int)
    (where_ : Option Where) (where_document : Option WhereDocument)
    (include_ : List String) (resp : QueryRespJson) :
    Except ApiError QueryResult × List Request :=
  match raiseForRunning st with
  | .error e => (.error e, [])
  | .ok _ =>
    (.ok { ids := resp.ids, distances := resp.distances,
           embeddings := resp.embeddings, metadatas := resp.metadatas,
           documents := resp.documents, uris := resp.uris,
           data := none, included := resp.included.getD include_ },
     [mkRequest st "post" ("/collections/" ++ collection_id ++ "/query") []
       (some (ReqBody.queryBody query_embeddings n_results where_
         where_document include_))])

/-- Embeds `reset()`. -/
def reset (st : ClientState) (resp : Bool) :
    Except ApiError Bool × List Request :=
  match raiseForRunning st with
  | .error e => (.error e, [])
  | .ok _ => (.ok resp, [mkRequest st "post" "/reset" [] none])

/-- Embeds `get_version()`. -/
def get_version (st : ClientState) (resp : String) :
    Except ApiError String × List Request :=
  match raiseForRunning st with
  | .error e => (.error e, [])
  | .ok _ => (.ok resp, [mkRequest st "get" "/version" [] none])

/-! ### Batch submission -/

/-- The batch tuple `(ids, embeddings, metadatas, documents, uris)`. -/
structure Batch where
  ids : IDs
  embeddings : Option (List Embedding)
  metadatas : Option (List Metadata)
  documents : Option (List Document)
  uris : Option (List URI)
  deriving Repr, DecidableEq

/-- Every present optional sequence of the batch has length `len(ids)`. -/
def batchLengthsOk (b : Batch) : Bool :=
  (match b.embeddings with | none => true | some l => l.length == b.ids.length) &&
  (match b.metadatas with | none => true | some l => l.length == b.ids.length) &&
  (match b.documents with | none => true | some l => l.length == b.ids.length) &&
  (match b.uris with | none => true | some l => l.length == b.ids.length)

/-- Modelled from the spec: one field-length check of `validate_batch`
(`chromadb.api.types`, outside this unit) — a present optional sequence
whose length differs from `len(ids)` fails with a validation error
identifying the offending field and the two lengths. -/
def checkFieldLen (field : String) (n : Nat) : Option Nat → Except ApiError Unit
  | none => .ok ()
  | some m =>
    if m = n then .ok ()
    else .error (.validationError ("Unequal lengths for field " ++ field ++
      ": " ++ toString m ++ " vs " ++ toString n))

/-- Modelled from the spec: `validate_batch` (`chromadb.api.types`, outside
this unit) — every present optional sequence must have length `len(ids)`,
and the batch size `len(ids)` must not exceed the maximum; exceeding it
fails with a validation error naming the configured maximum and the
attempted size. -/
def validate_batch (b : Batch) (max_batch_size : Int) : Except ApiError Unit :=
  match checkFieldLen "embeddings" b.ids.length (b.embeddings.map List.length) with
  | .error e => .error e
  | .ok _ =>
  match checkFieldLen "metadatas" b.ids.length (b.metadatas.map List.length) with
  | .error e => .error e
  | .ok _ =>
  match checkFieldLen "documents" b.ids.length (b.documents.map List.length) with
  | .error e => .error e
  | .ok _ =>
  match checkFieldLen "uris" b.ids.length (b.uris.map List.length) with
  | .error e => .error e
  | .ok _ =>
  if (b.ids.length : Int) > max_batch_size then
    .error (.validationError ("Batch size " ++ toString b.ids.length ++
      " exceeds max batch size " ++ toString max_batch_size))
  else .ok ()

/-- Embeds `get_max_batch_size()`: returns the cached `_max_batch_size`, fetching
`/pre-flight-checks` first when the cache holds the sentinel `-1`;
`serverMax` is the `max_batch_size` field of the decoded response. -/
def get_max_batch_size (st : ClientState) (serverMax : Int) :
    Except ApiError Int × ClientState × List Request :=
  match raiseForRunning st with
  | .error e => (.error e, st, [])
  | .ok _ =>
    if st.maxBatchSize = -1 then
      (.ok serverMax, { st with maxBatchSize := serverMax },
       [mkRequest st "get" "/pre-flight-checks" [] none])
    else (.ok st.maxBatchSize, st, [])

/-- Embeds `_submit_batch(batch, url)`: a single POST with the five batch fields
(the raw response is ignored by the callers modelled here). -/
def _submit_batch (st : ClientState) (batch : Batch) (url : String) :
    Except ApiError Unit × List Request :=
  match raiseForRunning st with
  | .error e => (.error e, [])
  | .ok _ =>
    (.ok (), [mkRequest st "post" url []
      (some (ReqBody.batchBody batch.ids batch.embeddings batch.metadatas
        batch.documents batch.uris))])

/-- Embeds `_add(ids, collection_id, embeddings, metadatas, documents, uris)`:
fetch/read the max batch size, validate, then submit to
`/collections/{id}/add`.  The numpy conversion of `embeddings` is the
identity here (external collaborator per the spec). -/
def _add (st : ClientState) (ids : IDs) (collection_id : UUIDStr)
    (embeddings : List Embedding) (metadatas : Option (List Metadata))
    (documents : Option (List Document)) (uris : Option (List URI))
    (serverMax : Int) : Except ApiError Bool × ClientState × List Request :=
  match raiseForRunning st with
  | .error e => (.error e, st, [])
  | .ok _ =>
    let batch : Batch := ⟨ids, some embeddings, metadatas, documents, uris⟩
    match get_max_batch_size st serverMax with
    | (.error e, st2, tr) => (.error e, st2, tr)
    | (.ok m, st2, tr) =>
      match validate_batch batch m with
      | .error e => (.error e, st2, tr)
      | .ok _ =>
        match _submit_batch st2 batch
          ("/collections/" ++ collection_id ++ "/add") with
        | (.error e, tr2) => (.error e, st2, tr ++ tr2)
        | (.ok _, tr2) => (.ok true, st2, tr ++ tr2)

/-- Embeds `_update(collection_id, ids, embeddings, metadatas, documents, uris)`. -/
def _update (st : ClientState) (collection_id : UUIDStr) (ids : IDs)
    (embeddings : Option (List Embedding)) (metadatas : Option (List Metadata))
    (documents : Option (List Document)) (uris : Option (List URI))
    (serverMax : Int) : Except ApiError Bool × ClientState × List Request :=
  match raiseForRunning st with
  | .error e => (.error e, st, [])
  | .ok _ =>
    let batch : Batch := ⟨ids, embeddings, metadatas, documents, uris⟩
    match get_max_batch_size st serverMax with
    | (.error e, st2, tr) => (.error e, st2, tr)
    | (.ok m, st2, tr) =>
      match validate_batch batch m with
      | .error e => (.error e, st2, tr)
      | .ok _ =>
        match _submit_batch st2 batch
          ("/collections/" ++ collection_id ++ "/update") with
        | (.error e, tr2) => (.error e, st2, tr ++ tr2)
        | (.ok _, tr2) => (.ok true, st2, tr ++ tr2)

/-- Embeds `_upsert(collection_id, ids, embeddings, metadatas, documents, uris)`. -/
def _upsert (st : ClientState) (collection_id : UUIDStr) (ids : IDs)
    (embeddings : List Embedding) (metadatas : Option (List Metadata))
    (documents : Option (List Document)) (uris : Option (List URI))
    (serverMax : Int) : Except ApiError Bool × ClientState × List Request :=
  match raiseForRunning st with
  | .error e => (.error e, st, [])
  | .ok _ =>
    let batch : Batch := ⟨ids, some embeddings, metadatas, documents, uris⟩
    match get_max_batch_size st serverMax with
    | (.error e, st2, tr) => (.error e, st2, tr)
    | (.ok m, st2, tr) =>
      match validate_batch batch m with
      | .error e => (.error e, st2, tr)
      | .ok _ =>
        match _submit_batch st2 batch
          ("/collections/" ++ collection_id ++ "/upsert") with
        | (.error e, tr2) => (.error e, st2, tr ++ tr2)
        | (.ok _, tr2) => (.ok true, st2, tr ++ tr2)

/-! ### Connection registry — `_get_client` and the `_clients` map

`httpx.AsyncClient` instances are identified by allocation order: the
registry carries a fresh counter and each newly constructed client gets the
next identity, so two clients are the same Python object iff they carry the
same number. -/

/-- The `_clients` dictionary (execution-context key → client identity)
together with the allocator for fresh client identities. -/
structure Registry where
  clients : List (Nat × Nat)
  next : Nat
  deriving Repr, DecidableEq

/-- Dictionary lookup `self._clients[loop_hash]` (first match). -/
def lookupClient : List (Nat × Nat) → Nat → Option Nat
  | [], _ => none
  | p :: rest, h => if p.1 = h then some p.2 else lookupClient rest h

/-- Embeds `_get_client()`: if the key has no entry, insert a freshly constructed
client for it; return the entry for the key. -/
def _get_client (reg : Registry) (loopHash : Nat) : Nat × Registry :=
  match lookupClient reg.clients loopHash with
  | some c => (c, reg)
  | none => (reg.next, ⟨reg.clients ++ [(loopHash, reg.next)], reg.next + 1⟩)

/-- A sequence of `_get_client` acquisitions: the list of returned client
identities (in call order) and the final registry. -/
def runAcquisitions (reg : Registry) : List Nat → List Nat × Registry
  | [] => ([], reg)
  | k :: ks =>
    let p := _get_client reg k
    let q := runAcquisitions p.2 ks
    (p.1 :: q.1, q.2)

/-- Registry well-formedness: allocated identities are below the counter,
keys are unique (it is a dictionary), and identities are unique (each
client object is constructed once). -/
def Registry.wf (r : Registry) : Prop :=
  (∀ p ∈ r.clients, p.2 < r.next) ∧ (r.clients.map Prod.fst).Nodup ∧
    (r.clients.map Prod.snd).Nodup

/-- The empty registry (`_clients = {}` at class initialization). -/
def Registry.empty : Registry := ⟨[], 0⟩

/-! ### Call sequences over one client instance (max-batch-size caching) -/

/-- One call of a batch-limit-consuming operation: a direct
`get_max_batch_size()` or an `_add`/`_update`/`_upsert` (which call it
internally). -/
inductive BatchOpCall where
  | maxBatch
  | addCall (ids : IDs) (collection_id : UUIDStr) (embeddings : List Embedding)
      (metadatas : Option (List Metadata)) (documents : Option (List Document))
      (uris : Option (List URI))
  | updateCall (collection_id : UUIDStr) (ids : IDs)
      (embeddings : Option (List Embedding)) (metadatas : Option (List Metadata))
      (documents : Option (List Document)) (uris : Option (List URI))
  | upsertCall (collection_id : UUIDStr) (ids : IDs)
      (embeddings : List Embedding) (metadatas : Option (List Metadata))
      (documents : Option (List Document)) (uris : Option (List URI))
  deriving Repr

/-- State and trace of one `BatchOpCall` against a server whose pre-flight
response advertises `serverMax`. -/
def stepCall (st : ClientState) (serverMax : Int) :
    BatchOpCall → ClientState × List Request
  | .maxBatch =>
    let r := get_max_batch_size st serverMax
    (r.2.1, r.2.2)
  | .addCall ids cid e m d u =>
    let r := _add st ids cid e m d u serverMax
    (r.2.1, r.2.2)
  | .updateCall cid ids e m d u =>
    let r := _update st cid ids e m d u serverMax
    (r.2.1, r.2.2)
  | .upsertCall cid ids e m d u =>
    let r := _upsert st cid ids e m d u serverMax
    (r.2.1, r.2.2)

/-- Run a sequence of calls on one client instance, concatenating traces. -/
def runCalls (st : ClientState) (serverMax : Int) :
    List BatchOpCall → ClientState × List Request
  | [] => (st, [])
  | c :: cs =>
    let p := stepCall st serverMax c
    let q := runCalls p.1 serverMax cs
    (q.1, p.2 ++ q.2)

/-- Number of fetches of the pre-flight endpoint in a trace. -/
def countPreflight (tr : List Request) : Nat :=
  (tr.filter (fun r => r.path = "/pre-flight-checks")).length

/-! ### Concrete fixtures for witnesses and counterexamples -/

/-- A concrete running client whose max batch size is not yet fetched. -/
def stFresh : ClientState :=
  { running := true, maxBatchSize := -1,
    apiUrl := "http://localhost:8000/api/v1",
    settings := { chroma_server_host := "localhost",
                  chroma_server_http_port := 8000 } }

/-- A concrete running client with the max batch size already cached. -/
def stCached : ClientState := { stFresh with maxBatchSize := 100 }

/-- A concrete uuid string. -/
def uuid0 : UUIDStr := "12345678-1234-5678-1234-567812345678"

/-- A concrete collection response. -/
def collResp0 : CollectionJson :=
  { id := uuid0, name := "docs", tenant := "default_tenant",
    database := "default_database", metadata := none, configuration := none }

/-- A concrete `/get` response with some optional fields present and some
missing. -/
def getResp0 : GetRespJson :=
  { ids := ["a", "b"], embeddings := none,
    metadatas := some [[("k", "v")], []],
    documents := some ["da", "db"], uris := none, included := none }

/-- A concrete `/query` response with a server-reported include list. -/
def queryResp0 : QueryRespJson :=
  { ids := [["a"]], distances := some [[3]], embeddings := none,
    metadatas := none, documents := some [["da"]], uris := none,
    included := some ["documents", "distances"] }

/-- The reserved characters of RFC 3986 (gen-delims and sub-delims), as
byte values: `: / ? # [ ] @ ! $ & ' ( ) * + , ; =`. -/
def reservedBytes : List Nat :=
  [58, 47, 63, 35, 91, 93, 64, 33, 36, 38, 39, 40, 41, 42, 43, 44, 59, 61]

/-- The batch-size bound an `_add`/`_update`/`_upsert` call is validated
against: the cached value, or the freshly fetched `serverMax` when the
cache holds the sentinel `-1`. -/
def effectiveMax (st : ClientState) (serverMax : Int) : Int :=
  if st.maxBatchSize = -1 then serverMax else st.maxBatchSize

end Chroma

namespace Chroma

/-- Claim C10: `get_settings` performs no running-state pre-flight check:
on every client, including one on which `close()` has completed, it returns
the stored settings object (its type shows it can neither raise a
LifecycleError nor dispatch a request). -/
theorem C10_get_settings_unchecked (st : ClientState) :
    get_settings (close st) = st.settings ∧ get_settings st = st.settings :=
  ⟨rfl, rfl⟩

/-- Claim C6: every domain operation (heartbeat, database/tenant/collection
CRUD, add/update/upsert/delete, get/query, count, peek, reset, version,
getMaxBatchSize) invoked after `close()` has completed returns the
LifecycleError from the running-state pre-flight check and dispatches no
request. -/
theorem C6_lifecycle_gating (st : ClientState) (hbResp : HeartbeatJson)
    (dbResp : DatabaseJson) (tnResp : TenantJson) (collResp : CollectionJson)
    (listResp : List CollectionJson) (getResp : GetRespJson)
    (qResp : QueryRespJson) (cnt : Int) (bResp : Bool) (vResp : String)
    (name tenant database : String) (cid : UUIDStr) (idOpt : Option UUIDStr)
    (nameOpt newName : Option String) (limit offset page page_size : Option Int)
    (ids : Option IDs) (w : Option Where) (wd : Option WhereDocument)
    (srt : Option String) (inc : List String) (md : Option Metadata)
    (cfg : Option String) (goc : Bool) (bids : IDs) (emb : List Embedding)
    (embOpt : Option (List Embedding)) (mds : Option (List Metadata))
    (docs : Option (List Document)) (uris : Option (List URI))
    (serverMax nres npeek : Int) :
    heartbeat (close st) hbResp = (.error .lifecycleError, []) ∧
    create_database (close st) name tenant = (.error .lifecycleError, []) ∧
    get_database (close st) name tenant dbResp = (.error .lifecycleError, []) ∧
    create_tenant (close st) name = (.error .lifecycleError, []) ∧
    get_tenant (close st) name tnResp = (.error .lifecycleError, []) ∧
    list_collections (close st) limit offset tenant database listResp =
      (.error .lifecycleError, []) ∧
    count_collections (close st) tenant database cnt =
      (.error .lifecycleError, []) ∧
    create_collection (close st) name cfg md goc tenant database collResp =
      (.error .lifecycleError, []) ∧
    get_collection (close st) nameOpt idOpt tenant database collResp =
      (.error .lifecycleError, []) ∧
    get_or_create_collection (close st) name cfg md tenant database collResp =
      (.error .lifecycleError, []) ∧
    _modify (close st) cid newName md = (.error .lifecycleError, []) ∧
    delete_collection (close st) name tenant database =
      (.error .lifecycleError, []) ∧
    _count (close st) cid cnt = (.error .lifecycleError, []) ∧
    _peek (close st) cid npeek getResp = (.error .lifecycleError, []) ∧
    _get (close st) cid ids w srt limit offset page page_size wd inc getResp =
      (.error .lifecycleError, []) ∧
    _delete (close st) cid ids w wd = (.error .lifecycleError, []) ∧
    _query (close st) cid emb nres w wd inc qResp =
      (.error .lifecycleError, []) ∧
    _add (close st) bids cid emb mds docs uris serverMax =
      (.error .lifecycleError, close st, []) ∧
    _update (close st) cid bids embOpt mds docs uris serverMax =
      (.error .lifecycleError, close st, []) ∧
    _upsert (close st) cid bids emb mds docs uris serverMax =
      (.error .lifecycleError, close st, []) ∧
    reset (close st) bResp = (.error .lifecycleError, []) ∧
    get_version (close st) vResp = (.error .lifecycleError, []) ∧
    get_max_batch_size (close st) serverMax =
      (.error .lifecycleError, close st, []) :=
  ⟨rfl, rfl, rfl, rfl, rfl, rfl, rfl, rfl, rfl, rfl, rfl, rfl, rfl, rfl, rfl,
   rfl, rfl, rfl, rfl, rfl, rfl, rfl, rfl⟩

/-- Claim C5: `get_collection` on a running client with both `name` and `id`
provided, or with neither provided, raises the caller validation error and
dispatches no request. -/
theorem C5_name_xor_id (st : ClientState) (h : st.running = true)
    (n : String) (i : UUIDStr) (tenant database : String)
    (resp : CollectionJson) :
    get_collection st none none tenant database resp =
      (.error (.validationError "Name or id must be specified, but not both"),
       []) ∧
    get_collection st (some n) (some i) tenant database resp =
      (.error (.validationError "Name or id must be specified, but not both"),
       []) := by
  constructor <;> simp [get_collection, raiseForRunning, h]

/-- Witness for C5 at concrete inputs. -/
theorem C5_name_xor_id_witness :
    get_collection stFresh none none "t" "d" collResp0 =
      (.error (.validationError "Name or id must be specified, but not both"),
       []) ∧
    get_collection stFresh (some "x") (some uuid0) "t" "d" collResp0 =
      (.error (.validationError "Name or id must be specified, but not both"),
       []) :=
  C5_name_xor_id stFresh rfl "x" uuid0 "t" "d" collResp0

/-- Claim C1, evaluated at the failing input: `get_collection` by id with
`name` absent issues one GET whose raw path — and hence whose
percent-encoded URL suffix — is the bare uuid string, not
`"/collections/"` followed by the uuid (the source's conditional
expression binds as `("/collections/" + name) if name else str(id)`). -/
theorem C1_code_bug_eval :
    (get_collection stFresh none (some uuid0) "default_tenant"
        "default_database" collResp0).2 =
      [{ method := "get", path := uuid0, url := stFresh.apiUrl ++ uuid0,
         params := [("tenant", "default_tenant"),
                    ("database", "default_database"), ("type", uuid0)],
         body := none }] ∧
    uuid0 ≠ "/collections/" ++ uuid0 ∧
    (get_collection stFresh none (some uuid0) "default_tenant"
        "default_database" collResp0).1 =
      .ok (CollectionModel.from_json collResp0) :=
  ⟨by decide, by decide, rfl⟩

/-- Counterexample to claim C2 as stated: with `page=0` and `page_size=10`
both provided (together with explicit `limit=5`, `offset=7`), the body is
sent with the explicit `limit=5`, `offset=7` — not with
`limit = page_size = 10`, `offset = (page-1)*page_size = -10` as the claim
requires for every provided pair. -/
theorem C2_counterexample :
    (_get stFresh "cid" none (some []) none (some 5) (some 7) (some 0)
        (some 10) (some []) ["metadatas", "documents"] getResp0).2 =
      [mkRequest stFresh "post" "/collections/cid/get" []
        (some (ReqBody.getBody none (some []) none (some 5) (some 7)
          (some []) ["metadatas", "documents"]))] ∧
    (some (5 : Int), some (7 : Int)) ≠
      (some (10 : Int), some (((0 : Int) - 1) * 10)) :=
  ⟨rfl, by decide⟩

/-- Claim C2 as amended: when `page` and `page_size` are both provided and
both nonzero (Python truthiness), the body is sent with
`offset = (page-1)*page_size` and `limit = page_size`, overriding any
explicitly passed `limit`/`offset`. -/
theorem C2_pagination (st : ClientState) (h : st.running = true)
    (cid : UUIDStr) (ids : Option IDs) (w : Option Where) (srt : Option String)
    (limit offset : Option Int) (p s : Int) (hp : p ≠ 0) (hs : s ≠ 0)
    (wd : Option WhereDocument) (inc : List String) (resp : GetRespJson) :
    (_get st cid ids w srt limit offset (some p) (some s) wd inc resp).2 =
      [mkRequest st "post" ("/collections/" ++ cid ++ "/get") []
        (some (ReqBody.getBody ids w srt (some s) (some ((p - 1) * s))
          wd inc))] := by
  simp [_get, raiseForRunning, h, truthyInt, hp, hs]

/-- Witness for C2 at the spec's example `page=2, page_size=10`, with
explicit `limit=5`, `offset=7` also passed: the body carries
`limit=10, offset=10`. -/
theorem C2_pagination_witness :
    (_get stFresh "cid" none none none (some 5) (some 7) (some 2) (some 10)
        none ["metadatas"] getResp0).2 =
      [mkRequest stFresh "post" "/collections/cid/get" []
        (some (ReqBody.getBody none none none (some 10) (some 10) none
          ["metadatas"]))] :=
  C2_pagination stFresh rfl "cid" none none none (some 5) (some 7) 2 10
    (by decide) (by decide) none ["metadatas"] getResp0

/-- Claim C7: on a running client, `_get` and `_query` build their results
by passing each present optional field of the decoded response through
unchanged, mapping each missing optional field to `none` (absent, never an
empty collection), setting `included` to the server-reported include list
when present and otherwise to the caller's requested include list, and
always setting `data` to `none`. -/
theorem C7_result_marshalling (st : ClientState) (h : st.running = true)
    (cid : UUIDStr) (ids : Option IDs) (w : Option Where) (srt : Option String)
    (limit offset page page_size : Option Int) (wd : Option WhereDocument)
    (inc incq : List String) (gresp : GetRespJson) (qresp : QueryRespJson)
    (qe : List Embedding) (nres : Int) :
    (_get st cid ids w srt limit offset page page_size wd inc gresp).1 =
      .ok { ids := gresp.ids, embeddings := gresp.embeddings,
            metadatas := gresp.metadatas, documents := gresp.documents,
            data := none, uris := gresp.uris,
            included := gresp.included.getD inc } ∧
    (_query st cid qe nres w wd incq qresp).1 =
      .ok { ids := qresp.ids, distances := qresp.distances,
            embeddings := qresp.embeddings, metadatas := qresp.metadatas,
            documents := qresp.documents, uris := qresp.uris,
            data := none, included := qresp.included.getD incq } := by
  constructor <;> simp [_get, _query, raiseForRunning, h]

/-- Witness for C7 at concrete responses: `getResp0` omits embeddings, uris
and the include list (so `included` falls back to the request's list);
`queryResp0` reports its own include list. -/
theorem C7_result_marshalling_witness :
    (_get stFresh "cid" none none none none none none none none
        ["metadatas", "documents"] getResp0).1 =
      .ok { ids := ["a", "b"], embeddings := none,
            metadatas := some [[("k", "v")], []],
            documents := some ["da", "db"], data := none, uris := none,
            included := ["metadatas", "documents"] } ∧
    (_query stFresh "cid" [] 10 none none
        ["metadatas", "documents", "distances"] queryResp0).1 =
      .ok { ids := [["a"]], distances := some [[3]], embeddings := none,
            metadatas := none, documents := some [["da"]], uris := none,
            data := none, included := ["documents", "distances"] } :=
  C7_result_marshalling stFresh rfl "cid" none none none none none none none
    none ["metadatas", "documents"] ["metadatas", "documents", "distances"]
    getResp0 queryResp0 [] 10

/-! ### String helpers -/

theorem str_empty_append (s : String) : "" ++ s = s := by
  apply String.ext
  rw [String.data_append]
  rfl

theorem str_append_assoc (a b c : String) : a ++ b ++ c = a ++ (b ++ c) := by
  apply String.ext
  simp [String.data_append, List.append_assoc]

theorem quoteBytes_append (safe xs ys : List Nat) :
    quoteBytes safe (xs ++ ys) = quoteBytes safe xs ++ quoteBytes safe ys := by
  induction xs with
  | nil => simp [quoteBytes, str_empty_append]
  | cons b bs ih => simp [quoteBytes, ih, str_append_assoc]

/-- Claim C9: every dispatched request's URL is the configured base URL
followed by the percent-encoding of the raw path; the encoding acts byte
by byte (so it applies to every character of any user-supplied segment of
the path, and splits over concatenation of segments); `/` (byte 47) is
preserved as a literal separator; and every other RFC 3986 reserved
character is escaped to `%XX`. -/
theorem C9_percent_encoding :
    (∀ (st : ClientState) (method p : String)
        (params : List (String × String)) (b : Option ReqBody),
      (mkRequest st method p params b).url =
        st.apiUrl ++ quoteBytes [47] (stringBytes p)) ∧
    (∀ safe xs ys : List Nat,
      quoteBytes safe (xs ++ ys) = quoteBytes safe xs ++ quoteBytes safe ys) ∧
    quoteByte [47] 47 = "/" ∧
    (∀ b ∈ reservedBytes, b ≠ 47 →
      quoteByte [47] b =
        String.mk ['%', hexDigit (b / 16), hexDigit (b % 16)]) :=
  ⟨fun _ _ _ _ _ => rfl, quoteBytes_append, by decide, by decide⟩

/-! ### Batch-size validation (C3) -/

theorem validate_batch_of_gt (b : Batch) (m : Int)
    (hl : batchLengthsOk b = true) (hs : (b.ids.length : Int) > m) :
    validate_batch b m =
      .error (.validationError ("Batch size " ++ toString b.ids.length ++
        " exceeds max batch size " ++ toString m)) := by
  rcases b with ⟨ids, e, md, d, u⟩
  cases e <;> cases md <;> cases d <;> cases u <;>
    simp_all [batchLengthsOk, validate_batch, checkFieldLen]

/-- Counterexample to claim C3 as stated: on a client whose max batch size
is not yet cached, an oversized `_add` does raise the ValidationError, but
one network request (the pre-flight fetch of the limit) has already been
dispatched — the trace is not empty. -/
theorem C3_counterexample :
    (_add stFresh ["a", "b", "c", "d"] "cid" [[], [], [], []] none none none
        3).1 =
      .error (.validationError "Batch size 4 exceeds max batch size 3") ∧
    (_add stFresh ["a", "b", "c", "d"] "cid" [[], [], [], []] none none none
        3).2.2 =
      [mkRequest stFresh "get" "/pre-flight-checks" [] none] :=
  ⟨rfl, rfl⟩

/-- Claim C3 as amended: an `_add`/`_update`/`_upsert` whose `ids` exceed
the effective max batch size raises the ValidationError naming the maximum
and the attempted size, and dispatches no batch-submission request — the
trace is empty when the limit was already cached, and consists solely of
the one pre-flight fetch when it was not. -/
theorem C3_oversized_batch (st : ClientState) (h : st.running = true)
    (ids : IDs) (cid : UUIDStr) (emb : List Embedding)
    (embOpt : Option (List Embedding)) (md : Option (List Metadata))
    (docs : Option (List Document)) (uris : Option (List URI))
    (serverMax : Int)
    (hlen1 : batchLengthsOk ⟨ids, some emb, md, docs, uris⟩ = true)
    (hlen2 : batchLengthsOk ⟨ids, embOpt, md, docs, uris⟩ = true)
    (hsz : (ids.length : Int) > effectiveMax st serverMax) :
    _add st ids cid emb md docs uris serverMax =
      (.error (.validationError ("Batch size " ++ toString ids.length ++
          " exceeds max batch size " ++ toString (effectiveMax st serverMax))),
       (if st.maxBatchSize = -1 then { st with maxBatchSize := serverMax }
        else st),
       (if st.maxBatchSize = -1 then
          [mkRequest st "get" "/pre-flight-checks" [] none]
        else [])) ∧
    _update st cid ids embOpt md docs uris serverMax =
      (.error (.validationError ("Batch size " ++ toString ids.length ++
          " exceeds max batch size " ++ toString (effectiveMax st serverMax))),
       (if st.maxBatchSize = -1 then { st with maxBatchSize := serverMax }
        else st),
       (if st.maxBatchSize = -1 then
          [mkRequest st "get" "/pre-flight-checks" [] none]
        else [])) ∧
    _upsert st cid ids emb md docs uris serverMax =
      (.error (.validationError ("Batch size " ++ toString ids.length ++
          " exceeds max batch size " ++ toString (effectiveMax st serverMax))),
       (if st.maxBatchSize = -1 then { st with maxBatchSize := serverMax }
        else st),
       (if st.maxBatchSize = -1 then
          [mkRequest st "get" "/pre-flight-checks" [] none]
        else [])) := by
  have h1 := validate_batch_of_gt ⟨ids, some emb, md, docs, uris⟩
    (effectiveMax st serverMax) hlen1 hsz
  have h2 := validate_batch_of_gt ⟨ids, embOpt, md, docs, uris⟩
    (effectiveMax st serverMax) hlen2 hsz
  by_cases hc : st.maxBatchSize = -1 <;>
    simp_all [_add, _update, _upsert, get_max_batch_size, raiseForRunning,
      effectiveMax]

/-- Witness for C3 at a concrete input: a batch of 101 ids against a
client with cached limit 100 raises the size ValidationError with an
empty trace. -/
theorem C3_oversized_batch_witness :
    _add stCached (List.replicate 101 "x") "cid" (List.replicate 101 [])
        none none none 0 =
      (.error (.validationError ("Batch size " ++
          toString (List.replicate 101 "x").length ++
          " exceeds max batch size " ++ toString (effectiveMax stCached 0))),
       stCached, []) :=
  (C3_oversized_batch stCached rfl (List.replicate 101 "x") "cid"
    (List.replicate 101 []) none none none none 0 (by decide) (by decide)
    (by decide)).1

/-! ### Max-batch-size caching (C4)

A potential argument: a trace can contain a pre-flight fetch only by
consuming the "still unfetched" potential of the client state, and a fetch
of a non-sentinel server value extinguishes that potential for good. -/

theorem countPreflight_append (a b : List Request) :
    countPreflight (a ++ b) = countPreflight a + countPreflight b := by
  simp [countPreflight, List.filter_append]

theorem ne_preflight (x : String) :
    "/collections/" ++ x ≠ "/pre-flight-checks" := by
  intro hEq
  have h2 : ("/collections/" ++ x).data = "/pre-flight-checks".data := by
    rw [hEq]
  rw [String.data_append] at h2
  have h3 : "/collections/".data =
      ['/', 'c', 'o', 'l', 'l', 'e', 'c', 't', 'i', 'o', 'n', 's', '/'] := rfl
  have h4 : "/pre-flight-checks".data =
      ['/', 'p', 'r', 'e', '-', 'f', 'l', 'i', 'g', 'h', 't', '-', 'c', 'h',
       'e', 'c', 'k', 's'] := rfl
  rw [h3, h4] at h2
  simp at h2

theorem gmbs_potential (st : ClientState) (serverMax : Int)
    (hS : serverMax ≠ -1) :
    countPreflight (get_max_batch_size st serverMax).2.2 +
      (if (get_max_batch_size st serverMax).2.1.maxBatchSize = -1 then 1
       else 0) ≤
      (if st.maxBatchSize = -1 then 1 else 0) := by
  by_cases hr : st.running = true <;> by_cases hc : st.maxBatchSize = -1 <;>
    simp [get_max_batch_size, raiseForRunning, hr, hc, countPreflight,
      mkRequest, hS]

theorem add_potential (st : ClientState) (serverMax : Int)
    (hS : serverMax ≠ -1) (ids : IDs) (cid : UUIDStr) (emb : List Embedding)
    (md : Option (List Metadata)) (docs : Option (List Document))
    (uris : Option (List URI)) :
    countPreflight (_add st ids cid emb md docs uris serverMax).2.2 +
      (if (_add st ids cid emb md docs uris serverMax).2.1.maxBatchSize = -1
       then 1 else 0) ≤
      (if st.maxBatchSize = -1 then 1 else 0) := by
  by_cases hr : st.running = true
  · by_cases hc : st.maxBatchSize = -1
    · cases hv : validate_batch ⟨ids, some emb, md, docs, uris⟩ serverMax <;>
        simp [_add, raiseForRunning, hr, get_max_batch_size, hc, hv,
          countPreflight, countPreflight_append, mkRequest, hS, _submit_batch,
          str_append_assoc, ne_preflight]
    · cases hv : validate_batch ⟨ids, some emb, md, docs, uris⟩
          st.maxBatchSize <;>
        simp [_add, raiseForRunning, hr, get_max_batch_size, hc, hv,
          countPreflight, countPreflight_append, mkRequest, hS, _submit_batch,
          str_append_assoc, ne_preflight]
  · simp [_add, raiseForRunning, hr, countPreflight]

theorem update_potential (st : ClientState) (serverMax : Int)
    (hS : serverMax ≠ -1) (cid : UUIDStr) (ids : IDs)
    (emb : Option (List Embedding)) (md : Option (List Metadata))
    (docs : Option (List Document)) (uris : Option (List URI)) :
    countPreflight (_update st cid ids emb md docs uris serverMax).2.2 +
      (if (_update st cid ids emb md docs uris serverMax).2.1.maxBatchSize =
          -1 then 1 else 0) ≤
      (if st.maxBatchSize = -1 then 1 else 0) := by
  by_cases hr : st.running = true
  · by_cases hc : st.maxBatchSize = -1
    · cases hv : validate_batch ⟨ids, emb, md, docs, uris⟩ serverMax <;>
        simp [_update, raiseForRunning, hr, get_max_batch_size, hc, hv,
          countPreflight, countPreflight_append, mkRequest, hS, _submit_batch,
          str_append_assoc, ne_preflight]
    · cases hv : validate_batch ⟨ids, emb, md, docs, uris⟩ st.maxBatchSize <;>
        simp [_update, raiseForRunning, hr, get_max_batch_size, hc, hv,
          countPreflight, countPreflight_append, mkRequest, hS, _submit_batch,
          str_append_assoc, ne_preflight]
  · simp [_update, raiseForRunning, hr, countPreflight]

theorem upsert_potential (st : ClientState) (serverMax : Int)
    (hS : serverMax ≠ -1) (cid : UUIDStr) (ids : IDs) (emb : List Embedding)
    (md : Option (List Metadata)) (docs : Option (List Document))
    (uris : Option (List URI)) :
    countPreflight (_upsert st cid ids emb md docs uris serverMax).2.2 +
      (if (_upsert st cid ids emb md docs uris serverMax).2.1.maxBatchSize =
          -1 then 1 else 0) ≤
      (if st.maxBatchSize = -1 then 1 else 0) := by
  by_cases hr : st.running = true
  · by_cases hc : st.maxBatchSize = -1
    · cases hv : validate_batch ⟨ids, some emb, md, docs, uris⟩ serverMax <;>
        simp [_upsert, raiseForRunning, hr, get_max_batch_size, hc, hv,
          countPreflight, countPreflight_append, mkRequest, hS, _submit_batch,
          str_append_assoc, ne_preflight]
    · cases hv : validate_batch ⟨ids, some emb, md, docs, uris⟩
          st.maxBatchSize <;>
        simp [_upsert, raiseForRunning, hr, get_max_batch_size, hc, hv,
          countPreflight, countPreflight_append, mkRequest, hS, _submit_batch,
          str_append_assoc, ne_preflight]
  · simp [_upsert, raiseForRunning, hr, countPreflight]

theorem step_potential (st : ClientState) (serverMax : Int)
    (hS : serverMax ≠ -1) (c : BatchOpCall) :
    countPreflight (stepCall st serverMax c).2 +
      (if (stepCall st serverMax c).1.maxBatchSize = -1 then 1 else 0) ≤
      (if st.maxBatchSize = -1 then 1 else 0) := by
  cases c with
  | maxBatch => exact gmbs_potential st serverMax hS
  | addCall ids cid e m d u => exact add_potential st serverMax hS ids cid e m d u
  | updateCall cid ids e m d u =>
    exact update_potential st serverMax hS cid ids e m d u
  | upsertCall cid ids e m d u =>
    exact upsert_potential st serverMax hS cid ids e m d u

theorem run_potential (serverMax : Int) (hS : serverMax ≠ -1)
    (cs : List BatchOpCall) : ∀ st : ClientState,
    countPreflight (runCalls st serverMax cs).2 +
      (if (runCalls st serverMax cs).1.maxBatchSize = -1 then 1 else 0) ≤
      (if st.maxBatchSize = -1 then 1 else 0) := by
  induction cs with
  | nil => intro st; simp [runCalls, countPreflight]
  | cons c cs ih =>
    intro st
    have h1 := step_potential st serverMax hS c
    have h2 := ih (stepCall st serverMax c).1
    simp only [runCalls, countPreflight_append]
    omega

/-- Counterexample to claim C4 as stated: when the server's pre-flight
response advertises `-1` (the cache sentinel), the stored value never
leaves the sentinel and every call fetches again — two calls on one fresh
client instance issue two fetch requests, not at most one. -/
theorem C4_counterexample :
    countPreflight
      (runCalls stFresh (-1) [BatchOpCall.maxBatch, BatchOpCall.maxBatch]).2 =
      2 := rfl

/-- Claim C4 as amended: provided the server-advertised value is not the
sentinel `-1`, any sequence of `getMaxBatchSize`/add/update/upsert calls on
one client instance issues at most one pre-flight fetch; a call finding the
cache at `-1` fetches, stores and returns the server value, and a call
finding a cached value returns it without any request. -/
theorem C4_max_batch_size_cached (st : ClientState) (serverMax : Int)
    (hS : serverMax ≠ -1) :
    (∀ calls : List BatchOpCall,
      countPreflight (runCalls st serverMax calls).2 ≤ 1) ∧
    (st.running = true → st.maxBatchSize = -1 →
      get_max_batch_size st serverMax =
        (.ok serverMax, { st with maxBatchSize := serverMax },
         [mkRequest st "get" "/pre-flight-checks" [] none])) ∧
    (st.running = true → st.maxBatchSize ≠ -1 →
      get_max_batch_size st serverMax = (.ok st.maxBatchSize, st, [])) := by
  refine ⟨fun calls => ?_,
    fun hr hc => by simp [get_max_batch_size, raiseForRunning, hr, hc],
    fun hr hc => by simp [get_max_batch_size, raiseForRunning, hr, hc]⟩
  have h1 := run_potential serverMax hS calls st
  have h2 : (if st.maxBatchSize = -1 then 1 else 0) ≤ 1 := by
    split <;> simp
  omega

/-- Witness for C4 on a fresh client against a server advertising 100:
three calls (two direct, one through `_add`) issue at most one fetch, and
the first call fetches, stores and returns 100. -/
theorem C4_max_batch_size_cached_witness :
    countPreflight
      (runCalls stFresh 100 [BatchOpCall.maxBatch,
        BatchOpCall.addCall ["a"] "cid" [[]] none none none,
        BatchOpCall.maxBatch]).2 ≤ 1 ∧
    get_max_batch_size stFresh 100 =
      (.ok 100, { stFresh with maxBatchSize := 100 },
       [mkRequest stFresh "get" "/pre-flight-checks" [] none]) :=
  ⟨(C4_max_batch_size_cached stFresh 100 (by decide)).1 _,
   (C4_max_batch_size_cached stFresh 100 (by decide)).2.1 rfl rfl⟩

/-! ### Connection registry (C8) -/

theorem lookupClient_eq_some {cs : List (Nat × Nat)} {k c : Nat}
    (h : lookupClient cs k = some c) : (k, c) ∈ cs := by
  induction cs with
  | nil => simp [lookupClient] at h
  | cons p rest ih =>
    by_cases hk : p.1 = k
    · simp only [lookupClient, hk, if_pos] at h
      obtain rfl : p.2 = c := Option.some.inj h
      exact (by rw [← hk] : (k, p.2) = p) ▸ List.mem_cons_self p rest
    · simp only [lookupClient, hk, if_neg, ite_false] at h
      exact List.mem_cons_of_mem _ (ih h)

theorem lookupClient_eq_none {cs : List (Nat × Nat)} {k : Nat}
    (h : lookupClient cs k = none) : ∀ c, (k, c) ∉ cs := by
  induction cs with
  | nil => intro c hc; simp at hc
  | cons p rest ih =>
    by_cases hk : p.1 = k
    · simp [lookupClient, hk] at h
    · simp only [lookupClient, hk, if_neg, ite_false] at h
      intro c hc
      rcases List.mem_cons.mp hc with hc | hc
      · exact hk (by rw [← hc])
      · exact ih h c hc

theorem lookupClient_none_not_key {cs : List (Nat × Nat)} {k : Nat}
    (h : lookupClient cs k = none) : k ∉ cs.map Prod.fst := by
  intro hmem
  rcases List.mem_map.mp hmem with ⟨⟨a, b⟩, hp, hpk⟩
  rw [show ((a, b) : Nat × Nat).1 = a from rfl] at hpk
  subst hpk
  exact lookupClient_eq_none h b hp

theorem get_client_mem (reg : Registry) (k : Nat) :
    (k, (_get_client reg k).1) ∈ (_get_client reg k).2.clients := by
  unfold _get_client
  cases hl : lookupClient reg.clients k with
  | some c => simpa using lookupClient_eq_some hl
  | none => simp

theorem get_client_mono (reg : Registry) (k : Nat) {p : Nat × Nat}
    (hp : p ∈ reg.clients) : p ∈ (_get_client reg k).2.clients := by
  unfold _get_client
  cases hl : lookupClient reg.clients k <;> simp [hp]

theorem get_client_wf {reg : Registry} (h : reg.wf) (k : Nat) :
    (_get_client reg k).2.wf := by
  obtain ⟨hb, hk, hc⟩ := h
  unfold _get_client
  cases hl : lookupClient reg.clients k with
  | some c => exact ⟨hb, hk, hc⟩
  | none =>
    refine ⟨?_, ?_, ?_⟩
    · intro p hp
      rcases List.mem_append.mp hp with hp | hp
      · exact Nat.lt_trans (hb p hp) (Nat.lt_succ_self _)
      · simp at hp
        rw [hp]
        exact Nat.lt_succ_self _
    · rw [List.map_append, List.nodup_append]
      refine ⟨hk, by simp, ?_⟩
      intro a ha hb2
      simp at hb2
      rw [hb2] at ha
      exact lookupClient_none_not_key hl ha
    · rw [List.map_append, List.nodup_append]
      refine ⟨hc, by simp, ?_⟩
      intro a ha hb2
      simp at hb2
      rcases List.mem_map.mp ha with ⟨p, hp, hpa⟩
      have := hb p hp
      rw [hpa] at this
      rw [hb2] at this
      exact Nat.lt_irrefl _ this

theorem run_mono (reg : Registry) (ks : List Nat) {p : Nat × Nat}
    (hp : p ∈ reg.clients) : p ∈ (runAcquisitions reg ks).2.clients := by
  induction ks generalizing reg with
  | nil => exact hp
  | cons k ks ih => exact ih _ (get_client_mono reg k hp)

theorem run_wf {reg : Registry} (h : reg.wf) (ks : List Nat) :
    (runAcquisitions reg ks).2.wf := by
  induction ks generalizing reg with
  | nil => exact h
  | cons k ks ih => exact ih (get_client_wf h k)

theorem run_length (reg : Registry) (ks : List Nat) :
    (runAcquisitions reg ks).1.length = ks.length := by
  induction ks generalizing reg with
  | nil => rfl
  | cons k ks ih => simp [runAcquisitions, ih]

theorem run_result_mem (reg : Registry) (ks : List Nat) (i : Nat)
    (hi : i < ks.length) :
    (ks.getD i 0, (runAcquisitions reg ks).1.getD i 0) ∈
      (runAcquisitions reg ks).2.clients := by
  induction ks generalizing reg i with
  | nil => simp at hi
  | cons k ks ih =>
    cases i with
    | zero =>
      simpa [runAcquisitions] using run_mono _ ks (get_client_mem reg k)
    | succ i =>
      simpa [runAcquisitions] using
        ih ((_get_client reg k).2) i (Nat.lt_of_succ_lt_succ hi)

theorem mem_functional {cs : List (Nat × Nat)}
    (h : (cs.map Prod.fst).Nodup) {k c1 c2 : Nat} (h1 : (k, c1) ∈ cs)
    (h2 : (k, c2) ∈ cs) : c1 = c2 := by
  induction cs with
  | nil => simp at h1
  | cons p rest ih =>
    rw [List.map_cons, List.nodup_cons] at h
    rcases List.mem_cons.mp h1 with h1 | h1 <;>
      rcases List.mem_cons.mp h2 with h2 | h2
    · rw [← h1] at h2; exact (Prod.mk.injEq _ _ _ _).mp h2.symm |>.2
    · exact absurd (List.mem_map.mpr ⟨(k, c2), h2, by rw [← h1]⟩) h.1
    · exact absurd (List.mem_map.mpr ⟨(k, c1), h1, by rw [← h2]⟩) h.1
    · exact ih h.2 h1 h2

theorem mem_injective {cs : List (Nat × Nat)}
    (h : (cs.map Prod.snd).Nodup) {k1 k2 c : Nat} (h1 : (k1, c) ∈ cs)
    (h2 : (k2, c) ∈ cs) : k1 = k2 := by
  induction cs with
  | nil => simp at h1
  | cons p rest ih =>
    rw [List.map_cons, List.nodup_cons] at h
    rcases List.mem_cons.mp h1 with h1 | h1 <;>
      rcases List.mem_cons.mp h2 with h2 | h2
    · rw [← h1] at h2; exact (Prod.mk.injEq _ _ _ _).mp h2.symm |>.1
    · exact absurd (List.mem_map.mpr ⟨(k2, c), h2, by rw [← h1]⟩) h.1
    · exact absurd (List.mem_map.mpr ⟨(k1, c), h1, by rw [← h2]⟩) h.1
    · exact ih h.2 h1 h2

theorem empty_wf : Registry.empty.wf :=
  ⟨by simp [Registry.empty], by simp [Registry.empty],
   by simp [Registry.empty]⟩

/-- Claim C8: over any sequence of connection acquisitions starting from
the empty registry, the i-th and j-th acquisitions return the same client
instance exactly when they were made under the same execution-context key:
same key — same pooled connection, distinct keys — distinct connections. -/
theorem C8_connection_per_context (ks : List Nat) (i j : Nat)
    (hi : i < ks.length) (hj : j < ks.length) :
    ((runAcquisitions Registry.empty ks).1.getD i 0 =
      (runAcquisitions Registry.empty ks).1.getD j 0) ↔
      ks.getD i 0 = ks.getD j 0 := by
  have hwf := run_wf empty_wf ks
  have m1 := run_result_mem Registry.empty ks i hi
  have m2 := run_result_mem Registry.empty ks j hj
  constructor
  · intro he
    rw [he] at m1
    exact mem_injective hwf.2.2 m1 m2
  · intro he
    rw [he] at m1
    exact mem_functional hwf.2.1 m1 m2

/-- Witness for C8 on the key sequence `[1, 2, 1]`: acquisitions 0 and 2
(same key) return the same connection; acquisitions 0 and 1 (distinct
keys) return distinct connections. -/
theorem C8_connection_per_context_witness :
    (((runAcquisitions Registry.empty [1, 2, 1]).1.getD 0 0 =
       (runAcquisitions Registry.empty [1, 2, 1]).1.getD 2 0) ↔
      ((1 : Nat) = 1)) ∧
    (((runAcquisitions Registry.empty [1, 2, 1]).1.getD 0 0 =
       (runAcquisitions Registry.empty [1, 2, 1]).1.getD 1 0) ↔
      ((1 : Nat) = 2)) :=
  ⟨C8_connection_per_context [1, 2, 1] 0 2 (by decide) (by decide),
   C8_connection_per_context [1, 2, 1] 0 1 (by decide) (by decide)⟩

end Chroma
